import Mathlib

/-!
Verification of the Windows backend of the gpui-tray repository.

The development shallowly embeds the backend found in
crates/tray-windows/src/tray.rs together with its helpers in
crates/tray-windows/src/window.rs and crates/tray-windows/src/util.rs.
Native Win32 calls are recorded as events in a trace; results of the
fallible native calls (CreateWindowExW, CreatePopupMenu) are drawn from an
explicit environment.  Tooltip strings are represented by the list of
UTF-16 code units produced for them, machine integers by Nat with explicit
reduction modulo 2^32 where the source wraps.
-/

namespace GpuiTray

/-- 2 to the power 32, the modulus of the u32 counter arithmetic. -/
def U32 : Nat := 2 ^ 32

/-- A native window handle: the null handle or a concrete valid handle. -/
inductive Hwnd
  | null
  | valid (id : Nat)
deriving DecidableEq, Repr

/-- gpui MenuItem as consumed by build_menu: the code matches Separator,
Action (only the name is used), Submenu, and a wildcard for any other
variant. -/
inductive GpuiMenuItem
  | separator
  | action (name : String)
  | submenu (name : String) (items : List GpuiMenuItem)
  | other

/-- WindowsTrayConfig from tray.rs: tooltip (as its UTF-16 code units),
visibility flag and optional menu items. -/
structure WindowsTrayConfig where
  tooltip : Option (List Nat)
  visible : Bool
  menu_items : Option (List GpuiMenuItem)

/-- WindowsTray from tray.rs: tray identifier, window handle and the two
state flags. -/
structure WindowsTray where
  tray_id : Nat
  hwnd : Hwnd
  visible : Bool
  registered : Bool
deriving DecidableEq, Repr

/-- An entry appended to a native popup menu by build_menu. -/
inductive MenuEntry
  | sep (id : Nat)
  | str (id : Nat) (name : String)
deriving DecidableEq, Repr

/-- Observable native effects of the backend, recorded as a trace.
destroyMenu is the OS primitive that releases a native menu object; it is
part of the observable alphabet although this code never emits it.
dropUserData records the drop of the Box holding a TrayUserData value (the
Rust-side allocation), which does not touch the native menu handle stored
inside it. -/
inductive Event
  | assignTrayId (id : Nat)
  | createWindow (ok : Bool)
  | createMenu (ok : Bool) (menuId : Nat)
  | appendMenu (menuId : Nat) (entry : MenuEntry)
  | destroyMenu (menuId : Nat)
  | dropUserData (hmenu : Option Nat)
  | setUserData (hwnd : Hwnd) (hmenu : Option Nat) (ok : Bool)
  | shellAdd (hwnd : Hwnd) (uid : Nat) (szTip : List Nat)
  | shellModify (hwnd : Hwnd) (uid : Nat) (szTip : List Nat)
  | shellDelete (hwnd : Hwnd) (uid : Nat)
deriving DecidableEq, Repr

/-- The three Shell_NotifyIconW verbs. -/
inductive Verb
  | add
  | modify
  | delete
deriving DecidableEq, Repr

/-- Environment: outcomes of the fallible native calls.  createWindowOk is
the result of CreateWindowExW, createMenuOk the result of CreatePopupMenu. -/
structure Env where
  createWindowOk : Bool
  createMenuOk : Bool

/-- Native side state: fresh handle supplies and the per-window
GWLP_USERDATA slots (window id mapped to the content of the stored
TrayUserData box, namely its hmenu field). -/
structure OsState where
  nextWindowId : Nat
  nextMenuId : Nat
  userData : List (Nat × Option Nat)
deriving DecidableEq, Repr

/-- Store a value under a key in an association list, replacing an
existing binding. -/
def setAssoc (i : Nat) (v : Option Nat) : List (Nat × Option Nat) → List (Nat × Option Nat)
  | [] => [(i, v)]
  | (j, w) :: rest => if i = j then (i, v) :: rest else (j, w) :: setAssoc i v rest

/-- GetWindowLongPtrW on the user-data slot: a null handle or a window
that never had its slot set yields 0 (modelled as none). -/
def getUserData (os : OsState) : Hwnd → Option (Option Nat)
  | Hwnd.null => none
  | Hwnd.valid i => os.userData.lookup i

/-- SetWindowLongPtrW on the user-data slot: fails on the null handle. -/
def setUserData (os : OsState) (h : Hwnd) (v : Option Nat) : OsState × Bool :=
  match h with
  | Hwnd.null => (os, false)
  | Hwnd.valid i => ({ os with userData := setAssoc i v os.userData }, true)

/-- encode_wide from util.rs: the UTF-16 code units of the string followed
by a zero terminator. -/
def encode_wide (tip : List Nat) : List Nat := tip ++ [0]

/-- The szTip buffer produced by the copy loop shared by
add_tray_icon_internal and modify_tray_icon_internal in tray.rs: a 128
slot buffer of zeros into which the first 128 units of the wide tooltip
are written. -/
def makeSzTip : Option (List Nat) → List Nat
  | none => List.replicate 128 0
  | some tip =>
    let w := (encode_wide tip).take 128
    w ++ List.replicate (128 - w.length) 0

/-- The menu entries appended by the loop of build_menu in window.rs.  The
index enumerates all items, the entry id is index plus one; Separator and
Action items are appended, Submenu and any other variant are logged and
skipped. -/
def appendEntries : List GpuiMenuItem → Nat → List MenuEntry
  | [], _ => []
  | item :: rest, index =>
    match item with
    | GpuiMenuItem.separator => MenuEntry.sep (index + 1) :: appendEntries rest (index + 1)
    | GpuiMenuItem.action name => MenuEntry.str (index + 1) name :: appendEntries rest (index + 1)
    | GpuiMenuItem.submenu _ _ => appendEntries rest (index + 1)
    | GpuiMenuItem.other => appendEntries rest (index + 1)

/-- Result of build_menu. -/
structure BuildOut where
  hmenu : Option Nat
  os : OsState
  events : List Event

/-- build_menu from window.rs: CreatePopupMenu, then append every
supported item; on CreatePopupMenu failure the function returns none. -/
def build_menu (env : Env) (os : OsState) (items : List GpuiMenuItem) : BuildOut :=
  if env.createMenuOk then
    let m := os.nextMenuId
    { hmenu := some m, os := { os with nextMenuId := m + 1 },
      events := Event.createMenu true m :: (appendEntries items 0).map (Event.appendMenu m) }
  else
    { hmenu := none, os := os, events := [Event.createMenu false os.nextMenuId] }

/-- Result of create_tray_window. -/
structure WindowOut where
  hwnd : Hwnd
  os : OsState
  events : List Event

/-- create_tray_window from window.rs: CreateWindowExW yielding a fresh
valid handle, or the null handle on failure. -/
def create_tray_window (env : Env) (os : OsState) : WindowOut :=
  if env.createWindowOk then
    { hwnd := Hwnd.valid os.nextWindowId, os := { os with nextWindowId := os.nextWindowId + 1 },
      events := [Event.createWindow true] }
  else
    { hwnd := Hwnd.null, os := os, events := [Event.createWindow false] }

/-- add_tray_icon with add_tray_icon_internal from tray.rs: one
Shell_NotifyIconW NIM_ADD call carrying the window handle, the tray id and
the szTip buffer. -/
def add_tray_icon (t : WindowsTray) (config : WindowsTrayConfig) : List Event :=
  [Event.shellAdd t.hwnd t.tray_id (makeSzTip config.tooltip)]

/-- modify_tray_icon with modify_tray_icon_internal from tray.rs: one
Shell_NotifyIconW NIM_MODIFY call. -/
def modify_tray_icon (t : WindowsTray) (config : WindowsTrayConfig) : List Event :=
  [Event.shellModify t.hwnd t.tray_id (makeSzTip config.tooltip)]

/-- remove_tray_icon from tray.rs: one Shell_NotifyIconW NIM_DELETE call. -/
def remove_tray_icon (t : WindowsTray) : List Event :=
  [Event.shellDelete t.hwnd t.tray_id]

/-- Result of a menu attachment. -/
structure AttachOut where
  os : OsState
  events : List Event

/-- The menu attachment block of create_internal (tray.rs lines 77 to 90):
build the menu and store a fresh TrayUserData box in the user-data slot;
nothing is read or freed first. -/
def attachMenuOnCreate (env : Env) (os : OsState) (h : Hwnd)
    (items : Option (List GpuiMenuItem)) : AttachOut :=
  match items with
  | none => { os := os, events := [] }
  | some its =>
    let b := build_menu env os its
    match b.hmenu with
    | none => { os := b.os, events := b.events }
    | some m =>
      let s := setUserData b.os h (some m)
      { os := s.1, events := b.events ++ [Event.setUserData h (some m) s.2] }

/-- Events of the conditional drop of the old user-data box in update
(tray.rs lines 225 to 231): when the stored pointer is non-zero the Box is
reconstructed and dropped; the drop releases the box allocation only, it
does not destroy the native menu handle held inside. -/
def dropEvents : Option (Option Nat) → List Event
  | some boxContent => [Event.dropUserData boxContent]
  | none => []

/-- The menu attachment block of update (tray.rs lines 222 to 243): build
the menu, read the old user-data pointer, drop the old box when the
pointer is non-zero (no native destroy of the menu handle it held), then
store a fresh box. -/
def attachMenuOnUpdate (env : Env) (os : OsState) (h : Hwnd)
    (items : Option (List GpuiMenuItem)) : AttachOut :=
  match items with
  | none => { os := os, events := [] }
  | some its =>
    let b := build_menu env os its
    match b.hmenu with
    | none => { os := b.os, events := b.events }
    | some m =>
      let s := setUserData b.os h (some m)
      { os := s.1,
        events := b.events ++ dropEvents (getUserData b.os h) ++
          [Event.setUserData h (some m) s.2] }

/-- Result of create_internal. -/
structure CreateOut where
  tray : WindowsTray
  os : OsState
  counter : Nat
  events : List Event

/-- create_internal from tray.rs: fetch_add on the u32 COUNTER, record the
id and the visibility; when not visible return before any window is
created; otherwise create the window, bail out on an invalid handle,
attach the menu when provided, register the icon with NIM_ADD and set the
registered flag. -/
def create_internal (env : Env) (os : OsState) (counter : Nat)
    (config : WindowsTrayConfig) : CreateOut :=
  let tray_id := counter % U32
  let counter1 := (counter + 1) % U32
  let t0 : WindowsTray :=
    { tray_id := tray_id, hwnd := Hwnd.null, visible := config.visible, registered := false }
  let ev0 : List Event := [Event.assignTrayId tray_id]
  if config.visible then
    let w := create_tray_window env os
    let t1 := { t0 with hwnd := w.hwnd }
    if w.hwnd = Hwnd.null then
      { tray := t1, os := w.os, counter := counter1, events := ev0 ++ w.events }
    else
      let a := attachMenuOnCreate env w.os w.hwnd config.menu_items
      { tray := { t1 with registered := true }, os := a.os, counter := counter1,
        events := ev0 ++ w.events ++ a.events ++ add_tray_icon t1 config }
  else
    { tray := t0, os := os, counter := counter1, events := ev0 }

/-- Result of update. -/
structure UpdateOut where
  tray : WindowsTray
  os : OsState
  events : List Event

/-- update from tray.rs: on visible equal to false, delete the icon when
currently visible and clear both flags, else do nothing; on visible equal
to true, NIM_ADD when not registered else NIM_MODIFY, then attach the menu
when provided and set the visible flag. -/
def update (env : Env) (os : OsState) (t : WindowsTray) (config : WindowsTrayConfig) :
    UpdateOut :=
  if config.visible then
    let step :=
      if t.registered then (t, modify_tray_icon t config)
      else ({ t with registered := true }, add_tray_icon t config)
    let a := attachMenuOnUpdate env os step.1.hwnd config.menu_items
    { tray := { step.1 with visible := true }, os := a.os, events := step.2 ++ a.events }
  else
    if t.visible then
      { tray := { t with visible := false, registered := false }, os := os,
        events := remove_tray_icon t }
    else
      { tray := t, os := os, events := [] }

/-- The process-wide system state: the u32 COUNTER, the
WindowsTrayState global (an optional WindowsTray) and the native state. -/
structure Sys where
  counter : Nat
  tray : Option WindowsTray
  os : OsState

/-- Initial native state: fresh handles start at 1, no user data stored. -/
def initOs : OsState := { nextWindowId := 1, nextMenuId := 1, userData := [] }

/-- State at process start: counter 0, no tray instance. -/
def initSys : Sys := { counter := 0, tray := none, os := initOs }

/-- Result of a whole set_tray call or a call sequence. -/
structure SysOut where
  sys : Sys
  events : List Event

/-- WindowsTrayState.update_tray from tray.rs: update the existing tray
when one is stored, else create one and store it. -/
def update_tray (env : Env) (s : Sys) (config : WindowsTrayConfig) : SysOut :=
  match s.tray with
  | some t =>
    let u := update env s.os t config
    { sys := { s with tray := some u.tray, os := u.os }, events := u.events }
  | none =>
    let c := create_internal env s.os s.counter config
    { sys := { counter := c.counter, tray := some c.tray, os := c.os }, events := c.events }

/-- WindowsTray.set_tray from tray.rs: ensure the global exists and funnel
the config into update_tray. -/
def set_tray (env : Env) (s : Sys) (config : WindowsTrayConfig) : SysOut :=
  update_tray env s config

/-- Run a sequence of set_tray calls from a given state, concatenating the
emitted events. -/
def runFrom (env : Env) (s : Sys) : List WindowsTrayConfig → SysOut
  | [] => { sys := s, events := [] }
  | c :: cs =>
    let r1 := set_tray env s c
    let r2 := runFrom env r1.sys cs
    { sys := r2.sys, events := r1.events ++ r2.events }

/-- Run a sequence of set_tray calls from process start. -/
def runTrace (env : Env) (cfgs : List WindowsTrayConfig) : SysOut :=
  runFrom env initSys cfgs

/-- The Shell_NotifyIconW verb carried by an event, when any. -/
def shellVerb : Event → Option Verb
  | Event.shellAdd _ _ _ => some Verb.add
  | Event.shellModify _ _ _ => some Verb.modify
  | Event.shellDelete _ _ => some Verb.delete
  | _ => none

/-- The sequence of shell verbs issued along a trace. -/
def shellVerbs (events : List Event) : List Verb := events.filterMap shellVerb

/-- Contribution of an event to the number of live native icon
registrations. -/
def iconDelta : Event → Int
  | Event.shellAdd _ _ _ => 1
  | Event.shellDelete _ _ => -1
  | _ => 0

/-- Net change of the live icon registration count along a trace. -/
def iconSum (events : List Event) : Int := (events.map iconDelta).sum

/-- Starting from b live registrations, the running registration count
stays in the set of 0 and 1 after every event of the trace. -/
def iconBalanced (b : Int) : List Event → Bool
  | [] => true
  | e :: rest =>
    let b1 := b + iconDelta e
    (b1 == 0 || b1 == 1) && iconBalanced b1 rest

/-- Contribution of an event to the number of live native menu objects. -/
def menuDelta : Event → Int
  | Event.createMenu true _ => 1
  | Event.destroyMenu _ => -1
  | _ => 0

/-- Number of live (created and not destroyed) native menu objects after a
trace. -/
def liveMenuCount (events : List Event) : Int := (events.map menuDelta).sum

/-- Whether an event is a destroyMenu call. -/
def isDestroyMenu : Event → Bool
  | Event.destroyMenu _ => true
  | _ => false

/-- Whether an event is a CreateWindowExW call. -/
def isCreateWindow : Event → Bool
  | Event.createWindow _ => true
  | _ => false

/-- The tray id recorded by an assignment event, when any. -/
def assignedId : Event → Option Nat
  | Event.assignTrayId i => some i
  | _ => none

/-- The tray ids assigned, in order, along a call sequence from process
start. -/
def trayIdAssignments (env : Env) (cfgs : List WindowsTrayConfig) : List Nat :=
  (runTrace env cfgs).events.filterMap assignedId

/-- The window handle an event addresses, when any. -/
def eventHwnd : Event → Option Hwnd
  | Event.shellAdd h _ _ => some h
  | Event.shellModify h _ _ => some h
  | Event.shellDelete h _ => some h
  | Event.setUserData h _ _ => some h
  | _ => none

/-- The state invariant of the claim: a visible backend has its icon
registered. -/
def trayInv (s : Sys) : Prop :=
  ∀ t, s.tray = some t → t.visible = true → t.registered = true

/-- The shape a supported menu item contributes to the native menu. -/
inductive MenuShape
  | sepShape
  | strShape (name : String)
deriving DecidableEq, Repr

/-- Shape of an appended native menu entry. -/
def entryShape : MenuEntry → MenuShape
  | MenuEntry.sep _ => MenuShape.sepShape
  | MenuEntry.str _ name => MenuShape.strShape name

/-- Shape contributed by a menu item: separators and single-level action
items are supported, everything else is dropped. -/
def supportedShape : GpuiMenuItem → Option MenuShape
  | GpuiMenuItem.separator => some MenuShape.sepShape
  | GpuiMenuItem.action name => some (MenuShape.strShape name)
  | GpuiMenuItem.submenu _ _ => none
  | GpuiMenuItem.other => none

/-- A fully successful native environment, used for concrete scenarios. -/
def envOK : Env := { createWindowOk := true, createMenuOk := true }

/-- A config that only hides the tray. -/
def cfgHideOnly : WindowsTrayConfig := { tooltip := none, visible := false, menu_items := none }

/-- A config that only shows the tray. -/
def cfgShowOnly : WindowsTrayConfig := { tooltip := none, visible := true, menu_items := none }

/-- A visible config carrying a one-separator menu. -/
def cfgMenuSep : WindowsTrayConfig :=
  { tooltip := none, visible := true, menu_items := some [GpuiMenuItem.separator] }

/-- A tooltip whose UTF-16 encoding has exactly 128 non-zero code units. -/
def tip128 : List Nat := List.replicate 128 97

theorem iconDelta_of_verb_none {e : Event} (h : shellVerb e = none) : iconDelta e = 0 := by
  cases e <;> simp_all [shellVerb, iconDelta]

/-- Events that a menu attachment may emit: no shell verb, no id
assignment, no window creation, and any addressed window is the attachment
target. -/
abbrev benignFor (h : Hwnd) (e : Event) : Prop :=
  shellVerb e = none ∧ assignedId e = none ∧ isCreateWindow e = false ∧
    ∀ h2, eventHwnd e = some h2 → h2 = h

theorem benignFor_createMenu (h : Hwnd) (ok : Bool) (m : Nat) :
    benignFor h (Event.createMenu ok m) := by
  simp [benignFor, shellVerb, assignedId, isCreateWindow, eventHwnd]

theorem benignFor_appendMenu (h : Hwnd) (m : Nat) (x : MenuEntry) :
    benignFor h (Event.appendMenu m x) := by
  simp [benignFor, shellVerb, assignedId, isCreateWindow, eventHwnd]

theorem benignFor_dropUserData (h : Hwnd) (b : Option Nat) :
    benignFor h (Event.dropUserData b) := by
  simp [benignFor, shellVerb, assignedId, isCreateWindow, eventHwnd]

theorem benignFor_setUserData (h : Hwnd) (v : Option Nat) (ok : Bool) :
    benignFor h (Event.setUserData h v ok) := by
  simp [benignFor, shellVerb, assignedId, isCreateWindow, eventHwnd]

theorem dropEvents_benign (h : Hwnd) (x : Option (Option Nat)) :
    ∀ e ∈ dropEvents x, benignFor h e := by
  cases x with
  | none => intro e he; simp [dropEvents] at he
  | some b =>
    intro e he
    simp only [dropEvents, List.mem_singleton] at he
    subst he
    exact benignFor_dropUserData h b

theorem build_menu_benign (env : Env) (os : OsState) (h : Hwnd) (its : List GpuiMenuItem) :
    ∀ e ∈ (build_menu env os its).events, benignFor h e := by
  intro e he
  by_cases hm : env.createMenuOk <;>
    simp only [build_menu, hm, if_true, if_false, Bool.false_eq_true, List.mem_cons,
      List.mem_map, List.not_mem_nil, or_false, List.mem_singleton] at he
  · rcases he with rfl | ⟨x, _, he⟩
    · exact benignFor_createMenu h true os.nextMenuId
    · subst he; exact benignFor_appendMenu h os.nextMenuId x
  · subst he; exact benignFor_createMenu h false os.nextMenuId

theorem attach_create_facets (env : Env) (os : OsState) (h : Hwnd)
    (items : Option (List GpuiMenuItem)) :
    ∀ e ∈ (attachMenuOnCreate env os h items).events, benignFor h e := by
  intro e he
  cases items with
  | none => simp [attachMenuOnCreate] at he
  | some its =>
    rcases hb : (build_menu env os its).hmenu with _ | m <;>
      simp only [attachMenuOnCreate, hb, List.mem_append, List.mem_singleton] at he
    · exact build_menu_benign env os h its e he
    · rcases he with he | rfl
      · exact build_menu_benign env os h its e he
      · exact benignFor_setUserData h (some m) _

theorem attach_update_facets (env : Env) (os : OsState) (h : Hwnd)
    (items : Option (List GpuiMenuItem)) :
    ∀ e ∈ (attachMenuOnUpdate env os h items).events, benignFor h e := by
  intro e he
  cases items with
  | none => simp [attachMenuOnUpdate] at he
  | some its =>
    rcases hb : (build_menu env os its).hmenu with _ | m <;>
      simp only [attachMenuOnUpdate, hb, List.mem_append, List.mem_singleton] at he
    · exact build_menu_benign env os h its e he
    · rcases he with (he | he) | rfl
      · exact build_menu_benign env os h its e he
      · exact dropEvents_benign h _ e he
      · exact benignFor_setUserData h (some m) _

theorem shellVerbs_append (l1 l2 : List Event) :
    shellVerbs (l1 ++ l2) = shellVerbs l1 ++ shellVerbs l2 :=
  List.filterMap_append l1 l2 shellVerb

theorem shellVerbs_attach_create (env : Env) (os : OsState) (h : Hwnd)
    (items : Option (List GpuiMenuItem)) :
    (attachMenuOnCreate env os h items).events.filterMap shellVerb = [] := by
  rw [List.filterMap_eq_nil_iff]
  intro e he
  exact (attach_create_facets env os h items e he).1

theorem shellVerbs_attach_update (env : Env) (os : OsState) (h : Hwnd)
    (items : Option (List GpuiMenuItem)) :
    (attachMenuOnUpdate env os h items).events.filterMap shellVerb = [] := by
  rw [List.filterMap_eq_nil_iff]
  intro e he
  exact (attach_update_facets env os h items e he).1

theorem appendEntries_shapes (items : List GpuiMenuItem) :
    ∀ i, (appendEntries items i).map entryShape = items.filterMap supportedShape := by
  induction items with
  | nil => intro i; rfl
  | cons item rest ih =>
    intro i
    cases item <;> simp [appendEntries, supportedShape, entryShape, ih (i + 1)]

/-- C10: for every menu-item list handed to build_menu, nested submenu items
and any other unsupported shape are dropped deterministically; the native
menu receives exactly the separator and single-level action entries, in
their original order, and an unsupported item never prevents the remaining
items from being appended. -/
theorem c10_unsupported_menu_items_dropped (items : List GpuiMenuItem) :
    (appendEntries items 0).map entryShape = items.filterMap supportedShape ∧
    ∀ env : Env, ∀ os : OsState, env.createMenuOk = true →
      (build_menu env os items).hmenu = some os.nextMenuId ∧
      (build_menu env os items).events =
        Event.createMenu true os.nextMenuId ::
          (appendEntries items 0).map (Event.appendMenu os.nextMenuId) := by
  refine ⟨appendEntries_shapes items 0, ?_⟩
  intro env os hm
  simp [build_menu, hm]

/-- C10 witness: instantiation at a list holding an action, a nested
submenu and a separator, in a successful environment. -/
theorem c10_unsupported_menu_items_dropped_witness :
    ((appendEntries [GpuiMenuItem.action "a",
        GpuiMenuItem.submenu "s" [GpuiMenuItem.separator], GpuiMenuItem.separator] 0).map
          entryShape =
      [GpuiMenuItem.action "a", GpuiMenuItem.submenu "s" [GpuiMenuItem.separator],
        GpuiMenuItem.separator].filterMap supportedShape) ∧
    (build_menu envOK initOs [GpuiMenuItem.action "a",
        GpuiMenuItem.submenu "s" [GpuiMenuItem.separator], GpuiMenuItem.separator]).hmenu =
      some initOs.nextMenuId ∧
    (build_menu envOK initOs [GpuiMenuItem.action "a",
        GpuiMenuItem.submenu "s" [GpuiMenuItem.separator], GpuiMenuItem.separator]).events =
      Event.createMenu true initOs.nextMenuId ::
        (appendEntries [GpuiMenuItem.action "a",
          GpuiMenuItem.submenu "s" [GpuiMenuItem.separator], GpuiMenuItem.separator] 0).map
            (Event.appendMenu initOs.nextMenuId) := by
  have h := c10_unsupported_menu_items_dropped [GpuiMenuItem.action "a",
    GpuiMenuItem.submenu "s" [GpuiMenuItem.separator], GpuiMenuItem.separator]
  exact ⟨h.1, (h.2 envOK initOs rfl).1, (h.2 envOK initOs rfl).2⟩

set_option maxRecDepth 4000 in
/-- C4: the claim is refuted by the code at a tooltip whose UTF-16 encoding
has exactly 128 code units: the copy loop takes 128 units of the
zero-terminated wide string, so all 128 buffer slots receive a non-zero
unit and no terminating zero remains inside the buffer, on the add path as
well as on the modify path; the buffer itself is never overrun (its length
stays 128). -/
theorem c4_tooltip_buffer_unterminated :
    tip128.length = 128 ∧
    (makeSzTip (some tip128)).length = 128 ∧
    ¬ (0 ∈ makeSzTip (some tip128)) ∧
    add_tray_icon { tray_id := 0, hwnd := Hwnd.null, visible := false, registered := false }
        { tooltip := some tip128, visible := true, menu_items := none } =
      [Event.shellAdd Hwnd.null 0 (makeSzTip (some tip128))] ∧
    modify_tray_icon { tray_id := 0, hwnd := Hwnd.null, visible := false, registered := false }
        { tooltip := some tip128, visible := true, menu_items := none } =
      [Event.shellModify Hwnd.null 0 (makeSzTip (some tip128))] := by
  refine ⟨by decide, by decide, by decide, rfl, rfl⟩

/-- C5 counterexample: on the first set_tray call with visible false, and
in an environment where window creation would succeed, create_internal
returns before any native window is created: the backend keeps the null
window handle, so the claim that it then holds a valid window handle is
false (the Hidden-state and no-icon parts do hold). -/
theorem c5_counterexample :
    (create_internal envOK initOs 0 cfgHideOnly).tray.hwnd = Hwnd.null ∧
    (∀ e ∈ (create_internal envOK initOs 0 cfgHideOnly).events, isCreateWindow e = false) ∧
    (create_internal envOK initOs 0 cfgHideOnly).tray.visible = false ∧
    (create_internal envOK initOs 0 cfgHideOnly).tray.registered = false := by
  decide

/-- C5 (amended): on the first set_tray call with visible false, the
backend skips icon registration and also skips window creation:
create_internal assigns the tray identifier, records visible false, and
returns early; afterwards the backend holds the null window handle, is in
the Hidden state, has no icon registered, and no native call beyond the
identifier assignment was made. -/
theorem c5_hidden_create_skips_window (env : Env) (os : OsState) (counter : Nat)
    (config : WindowsTrayConfig) (hv : config.visible = false) :
    (create_internal env os counter config).tray =
      { tray_id := counter % U32, hwnd := Hwnd.null, visible := false, registered := false } ∧
    (create_internal env os counter config).events = [Event.assignTrayId (counter % U32)] ∧
    (create_internal env os counter config).os = os := by
  simp [create_internal, hv]

/-- C5 witness: the amended statement at counter 3 with the hide-only
config in a successful environment. -/
theorem c5_hidden_create_skips_window_witness :
    (create_internal envOK initOs 3 cfgHideOnly).tray =
      { tray_id := 3 % U32, hwnd := Hwnd.null, visible := false, registered := false } ∧
    (create_internal envOK initOs 3 cfgHideOnly).events = [Event.assignTrayId (3 % U32)] ∧
    (create_internal envOK initOs 3 cfgHideOnly).os = initOs :=
  c5_hidden_create_skips_window envOK initOs 3 cfgHideOnly rfl

set_option maxRecDepth 4000 in
/-- C6: evaluated at two consecutive visible set_tray calls that each
carry a menu, the code creates two native menus and never issues the
destroy primitive; it does drop the Box that held the first menu handle in
the user-data slot, but the native menu object itself stays live, so two
live native menu objects exist after the second call, where the claim
allows at most one. -/
theorem c6_menu_object_leak :
    liveMenuCount (runTrace envOK [cfgMenuSep, cfgMenuSep]).events = 2 ∧
    (runTrace envOK [cfgMenuSep, cfgMenuSep]).events.countP isDestroyMenu = 0 ∧
    Event.dropUserData (some 1) ∈ (runTrace envOK [cfgMenuSep, cfgMenuSep]).events := by
  decide

theorem assigns_attach_create (env : Env) (os : OsState) (h : Hwnd)
    (items : Option (List GpuiMenuItem)) :
    (attachMenuOnCreate env os h items).events.filterMap assignedId = [] := by
  rw [List.filterMap_eq_nil_iff]
  intro e he
  exact (attach_create_facets env os h items e he).2.1

theorem assigns_attach_update (env : Env) (os : OsState) (h : Hwnd)
    (items : Option (List GpuiMenuItem)) :
    (attachMenuOnUpdate env os h items).events.filterMap assignedId = [] := by
  rw [List.filterMap_eq_nil_iff]
  intro e he
  exact (attach_update_facets env os h items e he).2.1

theorem create_internal_assigns (env : Env) (os : OsState) (counter : Nat)
    (config : WindowsTrayConfig) :
    (create_internal env os counter config).events.filterMap assignedId =
      [counter % U32] := by
  by_cases hv : config.visible
  · by_cases hw : env.createWindowOk
    · simp [create_internal, hv, create_tray_window, hw, List.filterMap_append,
        assigns_attach_create, add_tray_icon, assignedId]
    · simp [create_internal, hv, create_tray_window, hw, List.filterMap_append, assignedId]
  · simp [create_internal, hv, assignedId]

theorem update_facets (env : Env) (os : OsState) (t : WindowsTray)
    (config : WindowsTrayConfig) :
    ∀ e ∈ (update env os t config).events,
      benignFor t.hwnd e ∨
      (∃ tip, e = Event.shellAdd t.hwnd t.tray_id tip) ∨
      (∃ tip, e = Event.shellModify t.hwnd t.tray_id tip) ∨
      e = Event.shellDelete t.hwnd t.tray_id := by
  intro e he
  by_cases hv : config.visible
  · by_cases hr : t.registered <;>
      simp only [update, hv, hr, if_true, if_false, Bool.false_eq_true, modify_tray_icon,
        add_tray_icon, List.mem_append, List.mem_cons, List.not_mem_nil, or_false] at he
    · rcases he with rfl | he
      · exact Or.inr (Or.inr (Or.inl ⟨_, rfl⟩))
      · exact Or.inl (attach_update_facets env os t.hwnd config.menu_items e he)
    · rcases he with rfl | he
      · exact Or.inr (Or.inl ⟨_, rfl⟩)
      · exact Or.inl (attach_update_facets env os t.hwnd config.menu_items e he)
  · by_cases hvis : t.visible <;>
      simp only [update, hv, hvis, if_true, if_false, Bool.false_eq_true, remove_tray_icon,
        List.mem_cons, List.not_mem_nil, or_false] at he
    subst he
    exact Or.inr (Or.inr (Or.inr rfl))

theorem update_no_assign (env : Env) (os : OsState) (t : WindowsTray)
    (config : WindowsTrayConfig) :
    ∀ e ∈ (update env os t config).events, assignedId e = none := by
  intro e he
  rcases update_facets env os t config e he with hb | ⟨tip, rfl⟩ | ⟨tip, rfl⟩ | rfl
  · exact hb.2.1
  · rfl
  · rfl
  · rfl

theorem runFrom_no_assign (env : Env) (cs : List WindowsTrayConfig) :
    ∀ s : Sys, s.tray.isSome = true →
      (runFrom env s cs).events.filterMap assignedId = [] ∧
      (runFrom env s cs).sys.tray.isSome = true := by
  induction cs with
  | nil => intro s hs; exact ⟨rfl, hs⟩
  | cons c cs ih =>
    intro s hs
    rcases ht : s.tray with _ | t
    · rw [ht] at hs; simp at hs
    · have hstep : (set_tray env s c).events.filterMap assignedId = [] := by
        rw [List.filterMap_eq_nil_iff]
        intro e he
        simp only [set_tray, update_tray, ht] at he
        exact update_no_assign env s.os t c e he
      have hsome : (set_tray env s c).sys.tray.isSome = true := by
        simp [set_tray, update_tray, ht]
      have h2 := ih (set_tray env s c).sys hsome
      refine ⟨?_, ?_⟩
      · simp [runFrom, List.filterMap_append, hstep, h2.1]
      · simpa [runFrom] using h2.2

/-- C9: tray identifiers are u32 values below 2 to the 32, the list of
identifiers assigned along any call sequence is strictly increasing and
repeats no identifier, and its first element is 0; in this program at most
one assignment ever happens per process, so the list is empty or exactly
the singleton 0. -/
theorem c9_tray_id_counter (env : Env) (cfgs : List WindowsTrayConfig) :
    List.Pairwise (· < ·) (trayIdAssignments env cfgs) ∧
    (trayIdAssignments env cfgs).Nodup ∧
    (∀ i ∈ trayIdAssignments env cfgs, i < U32) ∧
    (trayIdAssignments env cfgs = [] ∨ trayIdAssignments env cfgs = [0]) := by
  have key : trayIdAssignments env cfgs = [] ∨ trayIdAssignments env cfgs = [0] := by
    cases cfgs with
    | nil => exact Or.inl rfl
    | cons c cs =>
      refine Or.inr ?_
      have h1 : (set_tray env initSys c).events.filterMap assignedId = [0] := by
        have := create_internal_assigns env initSys.os initSys.counter c
        simp only [set_tray, update_tray, initSys] at this ⊢
        simpa using this
      have hsome : (set_tray env initSys c).sys.tray.isSome = true := by
        simp [set_tray, update_tray, initSys]
      have h2 := runFrom_no_assign env cs (set_tray env initSys c).sys hsome
      rw [trayIdAssignments, runTrace]
      simp [runFrom, List.filterMap_append, h1, h2.1]
  rcases key with h | h <;> rw [h]
  · exact ⟨List.Pairwise.nil, List.nodup_nil, by simp, Or.inl rfl⟩
  · refine ⟨by simp, by simp, ?_, Or.inr rfl⟩
    intro i hi
    simp only [List.mem_singleton] at hi
    subst hi
    norm_num [U32]

theorem create_visible_ok (env : Env) (os : OsState) (k : Nat) (config : WindowsTrayConfig)
    (hw : env.createWindowOk = true) (hv : config.visible = true) :
    (create_internal env os k config).tray =
      { tray_id := k % U32, hwnd := Hwnd.valid os.nextWindowId, visible := true,
        registered := true } ∧
    shellVerbs (create_internal env os k config).events = [Verb.add] := by
  constructor
  · simp [create_internal, hv, create_tray_window, hw]
  · simp [create_internal, hv, create_tray_window, hw, shellVerbs, List.filterMap_append,
      shellVerbs_attach_create, add_tray_icon, shellVerb]

theorem update_hide (env : Env) (os : OsState) (t : WindowsTray) (config : WindowsTrayConfig)
    (hvis : t.visible = true) (hv : config.visible = false) :
    (update env os t config).tray = { t with visible := false, registered := false } ∧
    (update env os t config).os = os ∧
    (update env os t config).events = [Event.shellDelete t.hwnd t.tray_id] := by
  refine ⟨?_, ?_, ?_⟩ <;> simp [update, hv, hvis, remove_tray_icon]

theorem update_show_unregistered (env : Env) (os : OsState) (t : WindowsTray)
    (config : WindowsTrayConfig) (hr : t.registered = false) (hv : config.visible = true) :
    (update env os t config).tray = { t with registered := true, visible := true } ∧
    shellVerbs (update env os t config).events = [Verb.add] ∧
    Event.shellAdd t.hwnd t.tray_id (makeSzTip config.tooltip) ∈
      (update env os t config).events := by
  refine ⟨?_, ?_, ?_⟩
  · simp [update, hv, hr]
  · simp [update, hv, hr, shellVerbs, List.filterMap_append, shellVerbs_attach_update,
      add_tray_icon, shellVerb]
  · simp [update, hv, hr, add_tray_icon]

theorem update_show_registered (env : Env) (os : OsState) (t : WindowsTray)
    (config : WindowsTrayConfig) (hr : t.registered = true) (hv : config.visible = true) :
    (update env os t config).tray = { t with visible := true } ∧
    shellVerbs (update env os t config).events = [Verb.modify] := by
  constructor
  · simp [update, hv, hr]
  · simp [update, hv, hr, shellVerbs, List.filterMap_append, shellVerbs_attach_update,
      modify_tray_icon, shellVerb]

/-- C3: every set_tray call with visible true that reaches a backend whose
icon is already registered issues exactly one NIM_MODIFY shell call and no
NIM_ADD and no NIM_DELETE: the full shell-verb trace of the call is the
single verb modify. -/
theorem c3_registered_update_modifies (env : Env) (s : Sys) (t : WindowsTray)
    (config : WindowsTrayConfig) (ht : s.tray = some t) (hr : t.registered = true)
    (hv : config.visible = true) :
    shellVerbs (set_tray env s config).events = [Verb.modify] := by
  simp only [set_tray, update_tray, ht]
  exact (update_show_registered env s.os t config hr hv).2

/-- Config of the scenario call with tooltip Ready. -/
def cfgReady : WindowsTrayConfig :=
  { tooltip := some [82, 101, 97, 100, 121], visible := true, menu_items := none }

/-- Config of the scenario call with tooltip Busy. -/
def cfgBusy : WindowsTrayConfig :=
  { tooltip := some [66, 117, 115, 121], visible := true, menu_items := none }

/-- The system state after the first scenario call. -/
def sysAfterReady : Sys := (runTrace envOK [cfgReady]).sys

/-- The backend instance after the first scenario call. -/
def trayAfterReady : WindowsTray :=
  { tray_id := 0, hwnd := Hwnd.valid 1, visible := true, registered := true }

set_option maxRecDepth 4000 in
/-- C3 witness: the Ready then Busy scenario; after the Ready call the
backend is registered, and the Busy call issues exactly one modify. -/
theorem c3_registered_update_modifies_witness :
    shellVerbs (set_tray envOK sysAfterReady cfgBusy).events = [Verb.modify] :=
  c3_registered_update_modifies envOK sysAfterReady trayAfterReady cfgBusy (by decide) rfl rfl

/-- C8: a set_tray call with visible false reaching a Visible backend
issues exactly the NIM_DELETE shell call and moves to Hidden while leaving
the window handle and the tray identifier unchanged; an immediately
following set_tray call with visible true re-registers with NIM_ADD under
the same window handle and the same identifier. -/
theorem c8_hide_retains_identity (env : Env) (os : OsState) (t : WindowsTray)
    (c1 c2 : WindowsTrayConfig) (hvis : t.visible = true) (_hreg : t.registered = true)
    (h1 : c1.visible = false) (h2 : c2.visible = true) :
    (update env os t c1).events = [Event.shellDelete t.hwnd t.tray_id] ∧
    (update env os t c1).tray.hwnd = t.hwnd ∧
    (update env os t c1).tray.tray_id = t.tray_id ∧
    (update env os t c1).tray.visible = false ∧
    (update env os t c1).tray.registered = false ∧
    shellVerbs (update env (update env os t c1).os (update env os t c1).tray c2).events =
      [Verb.add] ∧
    Event.shellAdd t.hwnd t.tray_id (makeSzTip c2.tooltip) ∈
      (update env (update env os t c1).os (update env os t c1).tray c2).events := by
  obtain ⟨htray, hos, hev⟩ := update_hide env os t c1 hvis h1
  obtain ⟨_, hverbs, hmem⟩ := update_show_unregistered env (update env os t c1).os
      (update env os t c1).tray c2 (by rw [htray]) h2
  refine ⟨hev, by rw [htray], by rw [htray], by rw [htray], by rw [htray], hverbs, ?_⟩
  have hh : (update env os t c1).tray.hwnd = t.hwnd := by rw [htray]
  have hid : (update env os t c1).tray.tray_id = t.tray_id := by rw [htray]
  rw [hh, hid] at hmem
  exact hmem

/-- C8 witness: the theorem applied to the registered backend of the
Ready scenario, a hide call and a show call. -/
theorem c8_hide_retains_identity_witness :
    (update envOK initOs trayAfterReady cfgHideOnly).events =
      [Event.shellDelete trayAfterReady.hwnd trayAfterReady.tray_id] ∧
    (update envOK initOs trayAfterReady cfgHideOnly).tray.hwnd = trayAfterReady.hwnd ∧
    (update envOK initOs trayAfterReady cfgHideOnly).tray.tray_id = trayAfterReady.tray_id ∧
    (update envOK initOs trayAfterReady cfgHideOnly).tray.visible = false ∧
    (update envOK initOs trayAfterReady cfgHideOnly).tray.registered = false ∧
    shellVerbs (update envOK (update envOK initOs trayAfterReady cfgHideOnly).os
      (update envOK initOs trayAfterReady cfgHideOnly).tray cfgShowOnly).events = [Verb.add] ∧
    Event.shellAdd trayAfterReady.hwnd trayAfterReady.tray_id (makeSzTip cfgShowOnly.tooltip) ∈
      (update envOK (update envOK initOs trayAfterReady cfgHideOnly).os
        (update envOK initOs trayAfterReady cfgHideOnly).tray cfgShowOnly).events :=
  c8_hide_retains_identity envOK initOs trayAfterReady cfgHideOnly cfgShowOnly rfl rfl rfl rfl

/-- C2: starting from the Absent state, the sequence show, hide, show
issues exactly the shell verbs add, delete, add in that order; in
particular the Hidden to Visible transition re-registers with the add
primitive, not with modify. -/
theorem c2_show_hide_show (env : Env) (c1 c2 c3 : WindowsTrayConfig)
    (hw : env.createWindowOk = true) (h1 : c1.visible = true) (h2 : c2.visible = false)
    (h3 : c3.visible = true) :
    shellVerbs (runTrace env [c1, c2, c3]).events = [Verb.add, Verb.delete, Verb.add] := by
  obtain ⟨ht1, hv1⟩ := create_visible_ok env initOs 0 c1 hw h1
  obtain ⟨ht2, hos2, hev2⟩ := update_hide env (create_internal env initOs 0 c1).os
      (create_internal env initOs 0 c1).tray c2 (by rw [ht1]) h2
  obtain ⟨ht3, hv3, _⟩ := update_show_unregistered env
      (update env (create_internal env initOs 0 c1).os (create_internal env initOs 0 c1).tray
        c2).os
      (update env (create_internal env initOs 0 c1).os (create_internal env initOs 0 c1).tray
        c2).tray c3 (by rw [ht2]) h3
  simp only [runTrace, runFrom, set_tray, update_tray, initSys]
  simp only [shellVerbs_append, hv1, hv3, hev2, List.append_nil]
  simp [shellVerbs, shellVerb]

/-- C2 witness: the theorem applied to the concrete show, hide, show
sequence in a successful environment. -/
theorem c2_show_hide_show_witness :
    shellVerbs (runTrace envOK [cfgShowOnly, cfgHideOnly, cfgShowOnly]).events =
      [Verb.add, Verb.delete, Verb.add] :=
  c2_show_hide_show envOK cfgShowOnly cfgHideOnly cfgShowOnly rfl rfl rfl rfl

theorem create_hidden (env : Env) (os : OsState) (counter : Nat) (config : WindowsTrayConfig)
    (hv : config.visible = false) :
    (create_internal env os counter config).tray =
      { tray_id := counter % U32, hwnd := Hwnd.null, visible := false, registered := false } ∧
    (create_internal env os counter config).events = [Event.assignTrayId (counter % U32)] ∧
    (create_internal env os counter config).os = os := by
  simp [create_internal, hv]

theorem update_noop (env : Env) (os : OsState) (t : WindowsTray) (config : WindowsTrayConfig)
    (hvis : t.visible = false) (hv : config.visible = false) :
    (update env os t config).tray = t ∧ (update env os t config).events = [] := by
  constructor <;> simp [update, hv, hvis]

theorem update_hwnd_eq (env : Env) (os : OsState) (t : WindowsTray)
    (config : WindowsTrayConfig) : (update env os t config).tray.hwnd = t.hwnd := by
  by_cases hv : config.visible
  · by_cases hr : t.registered <;> simp [update, hv, hr]
  · by_cases hvis : t.visible <;> simp [update, hv, hvis]

theorem runFrom_null (env : Env) (cs : List WindowsTrayConfig) :
    ∀ s : Sys, ∀ t : WindowsTray, s.tray = some t → t.hwnd = Hwnd.null →
      (∀ e ∈ (runFrom env s cs).events,
        isCreateWindow e = false ∧ ∀ h2, eventHwnd e = some h2 → h2 = Hwnd.null) ∧
      ∃ t2, (runFrom env s cs).sys.tray = some t2 ∧ t2.hwnd = Hwnd.null := by
  induction cs with
  | nil =>
    intro s t ht hn
    refine ⟨?_, t, ?_, hn⟩
    · intro e he
      simp [runFrom] at he
    · simpa [runFrom] using ht
  | cons c cs ih =>
    intro s t ht hn
    have hstep : ∀ e ∈ (set_tray env s c).events,
        isCreateWindow e = false ∧ ∀ h2, eventHwnd e = some h2 → h2 = Hwnd.null := by
      intro e he
      simp only [set_tray, update_tray, ht] at he
      rcases update_facets env s.os t c e he with hb | ⟨tip, rfl⟩ | ⟨tip, rfl⟩ | rfl
      · refine ⟨hb.2.2.1, fun h2 hh => ?_⟩
        rw [hb.2.2.2 h2 hh, hn]
      · refine ⟨rfl, fun h2 hh => ?_⟩
        simp only [eventHwnd, Option.some.injEq] at hh
        subst hh
        exact hn
      · refine ⟨rfl, fun h2 hh => ?_⟩
        simp only [eventHwnd, Option.some.injEq] at hh
        subst hh
        exact hn
      · refine ⟨rfl, fun h2 hh => ?_⟩
        simp only [eventHwnd, Option.some.injEq] at hh
        subst hh
        exact hn
    have hnew : (set_tray env s c).sys.tray = some (update env s.os t c).tray := by
      simp [set_tray, update_tray, ht]
    have hmain := ih (set_tray env s c).sys (update env s.os t c).tray hnew
        (by rw [update_hwnd_eq]; exact hn)
    refine ⟨?_, ?_⟩
    · intro e he
      simp only [runFrom, List.mem_append] at he
      rcases he with he | he
      · exact hstep e he
      · exact hmain.1 e he
    · simpa [runFrom] using hmain.2

/-- C7: when the first set_tray call of the process carries visible false,
no native window is ever created along any continuation of the call
sequence: no CreateWindowExW call appears in the trace, every native call
that addresses a window (shell add, modify, delete, and the user-data
writes) addresses the null handle, and the backend instance stored in the
global keeps the null window handle forever. -/
theorem c7_hidden_first_null_window (env : Env) (c0 : WindowsTrayConfig)
    (cs : List WindowsTrayConfig) (h0 : c0.visible = false) :
    (∀ e ∈ (runTrace env (c0 :: cs)).events,
      isCreateWindow e = false ∧ ∀ h2, eventHwnd e = some h2 → h2 = Hwnd.null) ∧
    ∃ t, (runTrace env (c0 :: cs)).sys.tray = some t ∧ t.hwnd = Hwnd.null := by
  obtain ⟨htray, hevts, -⟩ := create_hidden env initOs 0 c0 h0
  have hfirst : ∀ e ∈ (set_tray env initSys c0).events,
      isCreateWindow e = false ∧ ∀ h2, eventHwnd e = some h2 → h2 = Hwnd.null := by
    intro e he
    simp only [set_tray, update_tray, initSys] at he
    rw [hevts] at he
    simp only [List.mem_singleton] at he
    subst he
    refine ⟨rfl, fun h2 hh => ?_⟩
    simp [eventHwnd] at hh
  have hnew : (set_tray env initSys c0).sys.tray =
      some (create_internal env initOs 0 c0).tray := rfl
  have hmain := runFrom_null env cs (set_tray env initSys c0).sys
      (create_internal env initOs 0 c0).tray hnew (by rw [htray])
  refine ⟨?_, ?_⟩
  · intro e he
    simp only [runTrace, runFrom, List.mem_append] at he
    rcases he with he | he
    · exact hfirst e he
    · exact hmain.1 e he
  · simpa [runTrace, runFrom] using hmain.2

/-- C7 witness: the theorem applied to a hide-first sequence followed by a
show call, in an otherwise successful environment. -/
theorem c7_hidden_first_null_window_witness :
    (∀ e ∈ (runTrace envOK (cfgHideOnly :: [cfgShowOnly])).events,
      isCreateWindow e = false ∧ ∀ h2, eventHwnd e = some h2 → h2 = Hwnd.null) ∧
    ∃ t, (runTrace envOK (cfgHideOnly :: [cfgShowOnly])).sys.tray = some t ∧
      t.hwnd = Hwnd.null :=
  c7_hidden_first_null_window envOK cfgHideOnly [cfgShowOnly] rfl

/-- Contribution of a shell verb to the live icon registration count. -/
def verbDelta : Verb → Int
  | Verb.add => 1
  | Verb.delete => -1
  | Verb.modify => 0

/-- Net registration change of a verb sequence. -/
def verbSum (vs : List Verb) : Int := (vs.map verbDelta).sum

/-- The running registration count along a verb sequence stays in the set
of 0 and 1. -/
def verbBalanced (b : Int) : List Verb → Bool
  | [] => true
  | v :: rest =>
    let b1 := b + verbDelta v
    (b1 == 0 || b1 == 1) && verbBalanced b1 rest

theorem iconDelta_eq_verbDelta (e : Event) :
    iconDelta e = ((shellVerb e).map verbDelta).getD 0 := by
  cases e <;> rfl

theorem iconSum_nil : iconSum [] = 0 := rfl

theorem iconSum_cons (e : Event) (l : List Event) :
    iconSum (e :: l) = iconDelta e + iconSum l := by
  simp [iconSum]

theorem iconSum_append (l1 l2 : List Event) :
    iconSum (l1 ++ l2) = iconSum l1 + iconSum l2 := by
  simp [iconSum]

theorem iconBalanced_append (b : Int) (l1 l2 : List Event) :
    iconBalanced b (l1 ++ l2) =
      (iconBalanced b l1 && iconBalanced (b + iconSum l1) l2) := by
  induction l1 generalizing b with
  | nil => simp [iconBalanced, iconSum]
  | cons e l ih =>
    simp only [List.cons_append, iconBalanced, iconSum_cons, List.append_eq, ih,
      Bool.and_assoc, add_assoc]

theorem iconSum_eq_verbSum (l : List Event) : iconSum l = verbSum (shellVerbs l) := by
  induction l with
  | nil => rfl
  | cons e l ih =>
    simp only [iconSum_cons, ih, shellVerbs, List.filterMap_cons]
    cases hv : shellVerb e with
    | none => simp [iconDelta_eq_verbDelta, hv]
    | some v => simp [iconDelta_eq_verbDelta, hv, verbSum]

theorem iconBalanced_of_verbBalanced (l : List Event) :
    ∀ b : Int, (b = 0 ∨ b = 1) → verbBalanced b (shellVerbs l) = true →
      iconBalanced b l = true := by
  induction l with
  | nil => intro b _ _; rfl
  | cons e l ih =>
    intro b hb hv
    rw [shellVerbs, List.filterMap_cons] at hv
    cases hse : shellVerb e with
    | none =>
      rw [hse] at hv
      have hd : iconDelta e = 0 := by rw [iconDelta_eq_verbDelta, hse]; rfl
      rw [iconBalanced, hd, add_zero]
      have hbt : (b == 0 || b == 1) = true := by
        rcases hb with rfl | rfl <;> rfl
      rw [hbt, Bool.true_and]
      exact ih b hb hv
    | some v =>
      rw [hse] at hv
      have hd : iconDelta e = verbDelta v := by rw [iconDelta_eq_verbDelta, hse]; rfl
      rw [verbBalanced] at hv
      simp only [Bool.and_eq_true, Bool.or_eq_true, beq_iff_eq] at hv
      rw [iconBalanced, hd]
      simp only [Bool.and_eq_true, Bool.or_eq_true, beq_iff_eq]
      refine ⟨hv.1, ?_⟩
      exact ih (b + verbDelta v) hv.1 hv.2

/-- The coupling between the stored backend instance and the number of
live icon registrations: no instance means no registration; an instance
means the visible flag implies the registered flag, and the registration
count equals 1 exactly when the registered flag is set. -/
def goodTray : Option WindowsTray → Int → Prop
  | none, b => b = 0
  | some t, b =>
    (t.visible = true → t.registered = true) ∧ b = (if t.registered then 1 else 0)

theorem set_tray_step (env : Env) (s : Sys) (config : WindowsTrayConfig) (b : Int)
    (hw : env.createWindowOk = true) (hg : goodTray s.tray b) :
    iconBalanced b (set_tray env s config).events = true ∧
    goodTray (set_tray env s config).sys.tray
      (b + iconSum (set_tray env s config).events) := by
  rcases ht : s.tray with _ | t
  · have hb : b = 0 := by rw [ht] at hg; exact hg
    subst hb
    have hsys : (set_tray env s config).sys.tray =
        some (create_internal env s.os s.counter config).tray := by
      simp [set_tray, update_tray, ht]
    have hev : (set_tray env s config).events =
        (create_internal env s.os s.counter config).events := by
      simp [set_tray, update_tray, ht]
    rw [hev, hsys]
    cases hv : config.visible with
    | false =>
      obtain ⟨htray, hevts, -⟩ := create_hidden env s.os s.counter config hv
      rw [htray, hevts]
      exact ⟨rfl, by simp [goodTray, iconSum, iconDelta]⟩
    | true =>
      obtain ⟨htray, hverbs⟩ := create_visible_ok env s.os s.counter config hw hv
      rw [htray]
      refine ⟨?_, ?_⟩
      · exact iconBalanced_of_verbBalanced _ 0 (Or.inl rfl) (by rw [hverbs]; rfl)
      · rw [iconSum_eq_verbSum, hverbs]
        simp [goodTray, verbSum, verbDelta]
  · have hg' : (t.visible = true → t.registered = true) ∧
        b = (if t.registered then 1 else 0) := by rw [ht] at hg; exact hg
    have hsys : (set_tray env s config).sys.tray = some (update env s.os t config).tray := by
      simp [set_tray, update_tray, ht]
    have hev : (set_tray env s config).events = (update env s.os t config).events := by
      simp [set_tray, update_tray, ht]
    rw [hev, hsys]
    cases hv : config.visible with
    | false =>
      cases hvis : t.visible with
      | false =>
        obtain ⟨htray, hevts⟩ := update_noop env s.os t config hvis hv
        rw [htray, hevts]
        refine ⟨rfl, ?_⟩
        simpa [goodTray, iconSum] using hg'
      | true =>
        have hreg : t.registered = true := hg'.1 hvis
        have hb : b = 1 := by rw [hg'.2, hreg]; rfl
        subst hb
        obtain ⟨htray, -, hevts⟩ := update_hide env s.os t config hvis hv
        rw [htray, hevts]
        refine ⟨rfl, ?_⟩
        simp [goodTray, iconSum_cons, iconSum_nil, iconDelta]
    | true =>
      cases hreg : t.registered with
      | true =>
        have hb : b = 1 := by rw [hg'.2, hreg]; rfl
        subst hb
        obtain ⟨htray, hverbs⟩ := update_show_registered env s.os t config hreg hv
        rw [htray]
        refine ⟨?_, ?_⟩
        · exact iconBalanced_of_verbBalanced _ 1 (Or.inr rfl) (by rw [hverbs]; rfl)
        · rw [iconSum_eq_verbSum, hverbs]
          simp [goodTray, verbSum, verbDelta, hreg]
      | false =>
        have hb : b = 0 := by rw [hg'.2, hreg]; rfl
        subst hb
        obtain ⟨htray, hverbs, -⟩ := update_show_unregistered env s.os t config hreg hv
        rw [htray]
        refine ⟨?_, ?_⟩
        · exact iconBalanced_of_verbBalanced _ 0 (Or.inl rfl) (by rw [hverbs]; rfl)
        · rw [iconSum_eq_verbSum, hverbs]
          simp [goodTray, verbSum, verbDelta]

theorem runFrom_good (env : Env) (cs : List WindowsTrayConfig) :
    ∀ s : Sys, ∀ b : Int, env.createWindowOk = true → goodTray s.tray b →
      iconBalanced b (runFrom env s cs).events = true ∧
      goodTray (runFrom env s cs).sys.tray (b + iconSum (runFrom env s cs).events) := by
  induction cs with
  | nil =>
    intro s b hw hg
    exact ⟨rfl, by simpa [runFrom, iconSum] using hg⟩
  | cons c cs ih =>
    intro s b hw hg
    obtain ⟨hb1, hg1⟩ := set_tray_step env s c b hw hg
    obtain ⟨hb2, hg2⟩ := ih (set_tray env s c).sys (b + iconSum (set_tray env s c).events) hw hg1
    refine ⟨?_, ?_⟩
    · simp only [runFrom]
      rw [iconBalanced_append]
      simp [hb1, hb2]
    · simp only [runFrom]
      rw [iconSum_append, ← add_assoc]
      exact hg2

/-- C1: for every sequence of set_tray calls in an environment where
window creation succeeds, the running count of live native icon
registrations stays 0 or 1 after every single native call of the whole
trace, and after each call of the sequence the backend satisfies the
invariant that a set visible flag implies a set registered flag; this
covers the state after create_internal and after every update. -/
theorem c1_registration_invariant (env : Env) (cfgs : List WindowsTrayConfig)
    (hw : env.createWindowOk = true) :
    iconBalanced 0 (runTrace env cfgs).events = true ∧
    ∀ n, trayInv (runTrace env (cfgs.take n)).sys := by
  have hg0 : goodTray initSys.tray 0 := rfl
  refine ⟨(runFrom_good env cfgs initSys 0 hw hg0).1, ?_⟩
  intro n
  unfold trayInv
  intro t ht hv
  have h := (runFrom_good env (cfgs.take n) initSys 0 hw hg0).2
  simp only [runTrace] at ht
  rw [ht] at h
  exact h.1 hv

/-- C1 witness: the theorem applied to a concrete show then hide sequence
in a successful environment. -/
theorem c1_registration_invariant_witness :
    iconBalanced 0 (runTrace envOK [cfgShowOnly, cfgHideOnly]).events = true ∧
    ∀ n, trayInv (runTrace envOK ([cfgShowOnly, cfgHideOnly].take n)).sys :=
  c1_registration_invariant envOK [cfgShowOnly, cfgHideOnly] rfl

end GpuiTray
